import Mathlib

/-!
Shallow embedding of the OrderGuard reconciliation engine
(`src/app.py`: `compare_with_price_book`, lines 546-781, and
`generate_email_report`, lines 814-862).

Modelling conventions:
* Python `float` values are modelled as rationals (`ℚ`); `float(x)` on a
  string is modelled by an exact decimal parser (`parseDecimal`, covering
  optional sign / digits / one decimal point; exponents, whitespace and
  `inf`/`nan` forms are outside the inputs any claim touches).
* A value taken from an extracted PO dict is a `PyVal`
  (number, string, or Python `None`); absent dict keys are `Option.none`
  on the record field.
* Python dicts keyed by strings are association lists preserving insertion
  order; `price_items_dict` uses insert-if-absent (first occurrence wins,
  line 561), the dash-removal map uses insert-or-overwrite (plain dict
  assignment, line 672).
* Python `str.startswith` and slicing `s[k:]` are character-based, embedded
  as `pyStartsWith` / `pyDrop` over `List Char`.
* `re.findall` for the two description patterns (lines 614 and 623) is
  embedded by `findallTokens` / `findallBW`, which implement the
  leftmost-longest backtracking semantics of those concrete patterns:
  pattern 1 matches, at the first alphanumeric scan position, the maximal
  run of `[-A-Za-z0-9_]` trimmed back to its last alphanumeric character,
  kept when its length is at least 6; pattern 2 (IGNORECASE) matches
  "BW" + alphanumeric + a maximal run of `[-A-Za-z0-9]` of length ≥ 6.
* `price_book['data']` (line 548) shares its key set with the
  `PriceItem` rows; the iteration order of `set(price_data.keys())`
  (line 549) is unspecified in Python, so the known-model list is an
  explicit parameter `knownModels`.
* `extract_po_number_from_filename` (lines 783-812) is not modelled: no
  claim concerns the PO identifier, so the report builder takes the
  already-extracted identifier string.
-/

/-- A Python value stored in an extracted PO line dict. -/
inductive PyVal where
  | num (q : ℚ)
  | str (s : String)
  | none
deriving DecidableEq, Repr

/-- Digits to a natural number, most significant first. -/
def digitsToNat (l : List Char) : ℕ :=
  l.foldl (fun a c => 10 * a + (c.toNat - 48)) 0

/-- Models Python `float(s)` on a string: optional sign, digits, at most one
decimal point, at least one digit overall. -/
def parseDecimal (s : String) : Option ℚ :=
  let l := s.toList
  let p := match l with
    | '-' :: rest => ((-1 : ℚ), rest)
    | '+' :: rest => ((1 : ℚ), rest)
    | _ => ((1 : ℚ), l)
  let intPart := p.2.takeWhile Char.isDigit
  let rest := p.2.dropWhile Char.isDigit
  match rest with
  | [] => if intPart.isEmpty then Option.none
          else some (p.1 * (digitsToNat intPart : ℚ))
  | '.' :: frac =>
      if frac.all Char.isDigit && !(intPart.isEmpty && frac.isEmpty) then
        some (p.1 * ((digitsToNat intPart : ℚ)
          + (digitsToNat frac : ℚ) / ((10 : ℚ) ^ frac.length)))
      else Option.none
  | _ => Option.none

/-- Models Python `float(v)` on a stored value: numbers pass through,
strings are parsed, `None` raises (TypeError), i.e. fails. -/
def parseF : PyVal → Option ℚ
  | PyVal.num q => some q
  | PyVal.str s => parseDecimal s
  | PyVal.none => Option.none

/-- Models Python `str(v)` for the raw display of an unparseable value. -/
def pyStr : PyVal → String
  | PyVal.num q => toString q
  | PyVal.str s => s
  | PyVal.none => "None"

/-- Character-wise prefix test on char lists. -/
def startsWithChars : List Char → List Char → Bool
  | [], _ => true
  | _ :: _, [] => false
  | n :: ns, h :: hs => n == h && startsWithChars ns hs

/-- Models Python `s.startswith(p)` (character-wise). -/
def pyStartsWith (s p : String) : Bool :=
  startsWithChars p.toList s.toList

/-- Models Python slicing `s[k:]` (character-wise). -/
def pyDrop (k : ℕ) (s : String) : String :=
  String.mk (s.toList.drop k)

/-- Substring containment: models Python `needle in hay` on strings. -/
def containsChars (hay needle : List Char) : Bool :=
  match hay with
  | [] => needle.isEmpty
  | _ :: rest => startsWithChars needle hay || containsChars rest needle

/-- Models `s.replace("-", "")` (line 671 and friends). -/
def removeDashes (s : String) : String :=
  String.mk (s.toList.filter (fun c => c != '-'))

/-- A `PriceItem` row (src/models.py lines 49-56): `price` is a non-nullable
float column, `source_column` and `excel_row` are nullable. -/
structure PriceItem where
  model_number : String
  price : ℚ
  excel_row : Option ℤ := Option.none
  source_column : Option String := Option.none
deriving DecidableEq, Repr

/-- The per-model record stored in `price_items_dict` (lines 562-566). -/
structure PBEntry where
  price : ℚ
  excel_row : Option ℤ
  source_column : String
deriving DecidableEq, Repr

/-- The value inserted for a price item: `source_column or "Unknown"`. -/
def mkEntry (it : PriceItem) : PBEntry :=
  { price := it.price
    excel_row := it.excel_row
    source_column :=
      match it.source_column with
      | some s => if s = "" then "Unknown" else s
      | Option.none => "Unknown" }

/-- The `price_items_dict` lookup structure: insertion-ordered assoc list. -/
abbrev PriceDict := List (String × PBEntry)

/-- Builds `price_items_dict` (lines 557-569): first occurrence of each
model number wins; later duplicates are returned as warnings. -/
def buildPriceAux (d : PriceDict) : List PriceItem → PriceDict × List PriceItem
  | [] => (d, [])
  | it :: rest =>
    if (d.lookup it.model_number).isSome then
      let r := buildPriceAux d rest
      (r.1, it :: r.2)
    else
      buildPriceAux (d ++ [(it.model_number, mkEntry it)]) rest

/-- The dict together with the duplicate warnings the loop logs. -/
def buildPriceDict (items : List PriceItem) : PriceDict × List PriceItem :=
  buildPriceAux [] items

/-- Positional specification of the warned duplicates: an item is warned
exactly when an earlier item (tracked via the `seen` model list) already
carried its model number. -/
def laterDups (seen : List String) : List PriceItem → List PriceItem
  | [] => []
  | it :: rest =>
    if it.model_number ∈ seen then it :: laterDups seen rest
    else laterDups (it.model_number :: seen) rest

/-- An extracted PO line (the dict produced by the PDF extractor): every
key may be absent (`Option.none` also covers a present Python `None` for
`model`, which the code treats identically). -/
structure POItem where
  model : Option String := Option.none
  price : Option PyVal := Option.none
  quantity : Option PyVal := Option.none
  description : Option String := Option.none
deriving DecidableEq, Repr

/-- Lines 575-577: the displayed model falls back to "Unknown Item". -/
def modelDisplay (item : POItem) : String :=
  match item.model with
  | some m => if m = "" then "Unknown Item" else m
  | Option.none => "Unknown Item"

/-- The six statuses assigned by `compare_with_price_book` (lines 585,
749, 766, 768, 775, 777). -/
inductive Status where
  | Match
  | Mismatch
  | ModelNotFound
  | DataExtractionIssue
  | PriceFormatError
  | LookupError
deriving DecidableEq, Repr

/-- One result dict of `compare_with_price_book`; keys that may be absent
in the Python dict are `Option` fields. -/
structure MatchResult where
  model : String
  po_price : PyVal
  quantity : PyVal
  status : Status
  po_line_number : ℕ
  price_book_row : Option ℤ
  error_value : ℚ
  description : Option String
  book_price : Option ℚ
  source_column : Option String
  discrepancy : Option ℚ
deriving DecidableEq, Repr

/-- Character class `[A-Za-z0-9]` of the description patterns. -/
def isAlnumAscii (c : Char) : Bool := c.isAlpha || c.isDigit

/-- Character class `[-A-Za-z0-9_]` of pattern 1 (line 614). -/
def isWordDash (c : Char) : Bool := isAlnumAscii c || c == '-' || c == '_'

/-- Character class `[-A-Z0-9]` with IGNORECASE of pattern 2 (line 623). -/
def isAlnumDash (c : Char) : Bool := isAlnumAscii c || c == '-'

/-- Drops trailing characters that are not alphanumeric. -/
def rstripNonAlnum (l : List Char) : List Char :=
  (l.reverse.dropWhile (fun c => !isAlnumAscii c)).reverse

/-- The match of pattern 1 anchored at the current scan position, if any:
the maximal `[-A-Za-z0-9_]` run starting at an alphanumeric character,
trimmed back to its last alphanumeric character, kept when ≥ 6 long
(the backtracking semantics of
`BW[A-Za-z0-9][-A-Za-z0-9_]{4,}[A-Za-z0-9]|[A-Za-z0-9][-A-Za-z0-9_]{4,}[A-Za-z0-9]`). -/
def tokenAt (l : List Char) : Option (List Char) :=
  match l with
  | [] => Option.none
  | c :: _ =>
    if isAlnumAscii c then
      let tok := rstripNonAlnum (l.takeWhile isWordDash)
      if 6 ≤ tok.length then some tok else Option.none
    else Option.none

/-- Fuelled scan loop of `re.findall` for pattern 1; the fuel is the input
length, which the scan (advancing by ≥ 1 each step) never exhausts. -/
def findallTokensAux : ℕ → List Char → List String
  | 0, _ => []
  | _, [] => []
  | fuel + 1, l =>
    match tokenAt l with
    | some tok => String.mk tok :: findallTokensAux fuel (l.drop tok.length)
    | Option.none => findallTokensAux fuel l.tail

/-- `re.findall` of pattern 1 over the description (line 614). -/
def findallTokens (l : List Char) : List String :=
  findallTokensAux l.length l

/-- The match of pattern 2 (`BW[A-Z0-9][-A-Z0-9]{6,}`, IGNORECASE)
anchored at the current scan position, if any. -/
def bwTokenAt (l : List Char) : Option (List Char) :=
  match l with
  | b :: w :: c :: rest =>
    if (b == 'B' || b == 'b') && (w == 'W' || w == 'w') && isAlnumAscii c then
      let run := rest.takeWhile isAlnumDash
      if 6 ≤ run.length then some (b :: w :: c :: run) else Option.none
    else Option.none
  | _ => Option.none

/-- Fuelled scan loop of `re.findall` for pattern 2. -/
def findallBWAux : ℕ → List Char → List String
  | 0, _ => []
  | _, [] => []
  | fuel + 1, l =>
    match bwTokenAt l with
    | some tok => String.mk tok :: findallBWAux fuel (l.drop tok.length)
    | Option.none => findallBWAux fuel l.tail

/-- `re.findall` of pattern 2 over the description (line 623). -/
def findallBW (l : List Char) : List String :=
  findallBWAux l.length l

/-- The `all_potential_models` list before de-duplication (lines 603-624):
primary model, pattern-1 tokens, known price-book models occurring as
substrings of the description, pattern-2 tokens. -/
def candidateSources (item : POItem) (knownModels : List String) : List String :=
  (match item.model with
   | some m => if m = "" then [] else [m]
   | Option.none => []) ++
  (match item.description with
   | some d =>
     if d = "" then [] else
       findallTokens d.toList
       ++ knownModels.filter (fun m => containsChars d.toList m.toList)
       ++ findallBW d.toList
   | Option.none => [])

/-- First-occurrence de-duplication loop (lines 627-632). -/
def dedupFirstAux (seen : List String) : List String → List String
  | [] => []
  | m :: rest =>
    if m ∈ seen then dedupFirstAux seen rest
    else m :: dedupFirstAux (m :: seen) rest

/-- De-duplicate keeping first occurrences. -/
def dedupFirst (l : List String) : List String := dedupFirstAux [] l

/-- `unique_models` of a PO line (lines 600-632). -/
def allPotentialModels (item : POItem) (knownModels : List String) : List String :=
  dedupFirst (candidateSources item knownModels)

/-- STEP 1 (lines 640-644): first candidate that is an index key. -/
def step1 (dict : PriceDict) (models : List String) : Option String :=
  models.find? (fun m => (dict.lookup m).isSome)

/-- STEP 2 (lines 647-654): first "BW"-prefixed candidate whose stripped
base is an index key. -/
def step2 (dict : PriceDict) (models : List String) : Option String :=
  models.find? (fun m =>
    pyStartsWith m "BW" && (dict.lookup (pyDrop 2 m)).isSome)

/-- STEP 3 (lines 657-664): first "B"-but-not-"BW" candidate whose
stripped base is an index key. -/
def step3 (dict : PriceDict) (models : List String) : Option String :=
  models.find? (fun m =>
    pyStartsWith m "B" && !pyStartsWith m "BW"
      && (dict.lookup (pyDrop 1 m)).isSome)

/-- Dict assignment `d[k] = v`: overwrite in place, or append. -/
def insertOverwrite (d : List (String × String)) (k v : String) :
    List (String × String) :=
  if (d.lookup k).isSome then
    d.map (fun p => if p.1 = k then (k, v) else p)
  else d ++ [(k, v)]

/-- Loop of lines 670-672 building the dash-removed map. -/
def dashlessAux (acc : List (String × String)) : List String →
    List (String × String)
  | [] => acc
  | k :: rest => dashlessAux (insertOverwrite acc (removeDashes k) k) rest

/-- The `dashless_price_book` map: dash-stripped key to original model,
built over the index keys in insertion order (later keys overwrite). -/
def dashlessPriceBook (dict : PriceDict) : List (String × String) :=
  dashlessAux [] (dict.map Prod.fst)

/-- STEP 4 body for one candidate (lines 675-720): plain dashless lookup,
then BW-stripped, then B-stripped, each guarded by the exact-equality
check of the dash-stripped forms; a guard failure abandons the candidate
(`continue`). Returns (matched model, `lookup_model_for_dash`). -/
def step4One (dl : List (String × String)) (m : String) :
    Option (String × String) :=
  match dl.lookup (removeDashes m) with
  | some orig =>
    if removeDashes m = removeDashes orig then some (m, orig) else Option.none
  | Option.none =>
    match (if pyStartsWith m "BW"
           then dl.lookup (removeDashes (pyDrop 2 m)) else Option.none) with
    | some orig =>
      if removeDashes (pyDrop 2 m) = removeDashes orig then some (m, orig)
      else Option.none
    | Option.none =>
      match (if pyStartsWith m "B" && !pyStartsWith m "BW"
             then dl.lookup (removeDashes (pyDrop 1 m)) else Option.none) with
      | some orig =>
        if removeDashes (pyDrop 1 m) = removeDashes orig then some (m, orig)
        else Option.none
      | Option.none => Option.none

/-- STEP 4 over the candidate list (lines 667-720). -/
def step4 (dl : List (String × String)) : List String →
    Option (String × String)
  | [] => Option.none
  | m :: rest =>
    match step4One dl m with
    | some r => some r
    | Option.none => step4 dl rest

/-- The full cascade (lines 639-722): returns the matched model and, for a
STEP 4 match, the canonical `lookup_model_for_dash`. -/
def matchCascade (dict : PriceDict) (models : List String) :
    Option (String × Option String) :=
  match step1 dict models with
  | some m => some (m, Option.none)
  | Option.none =>
    match step2 dict models with
    | some m => some (m, Option.none)
    | Option.none =>
      match step3 dict models with
      | some m => some (m, Option.none)
      | Option.none =>
        match step4 (dashlessPriceBook dict) models with
        | some r => some (r.1, some r.2)
        | Option.none => Option.none

/-- Lines 735-745: the key used for the price lookup — the dash-removal
canonical model when set, else the matched model with a "BW"/"B" prefix
stripped (even when the match itself was exact). -/
def lookupModelOf (matched : String) (dashOpt : Option String) : String :=
  match dashOpt with
  | some orig => orig
  | Option.none =>
    if pyStartsWith matched "BW" then pyDrop 2 matched
    else if pyStartsWith matched "B" then pyDrop 1 matched
    else matched

/-- Processing of one PO line (loop body, lines 571-779). -/
def processLine (dict : PriceDict) (knownModels : List String)
    (lineNo : ℕ) (item : POItem) : MatchResult :=
  let base : MatchResult := {
    model := modelDisplay item
    po_price := item.price.getD (PyVal.str "Extraction Issue")
    quantity := item.quantity.getD (PyVal.num 1)
    status := Status.DataExtractionIssue
    po_line_number := lineNo
    price_book_row := Option.none
    error_value := 0
    description := item.description
    book_price := Option.none
    source_column := Option.none
    discrepancy := Option.none }
  match item.price with
  | Option.none => base
  | some priceVal =>
    match matchCascade dict (allPotentialModels item knownModels) with
    | Option.none => { base with status := Status.ModelNotFound }
    | some md =>
      match dict.lookup (lookupModelOf md.1 md.2) with
      | Option.none => { base with model := md.1, status := Status.LookupError }
      | some entry =>
        let base2 := { base with
          model := md.1
          book_price := some entry.price
          price_book_row := entry.excel_row
          source_column := some entry.source_column }
        match parseF priceVal, parseF base.quantity with
        | some po, some q =>
          if po = entry.price then { base2 with status := Status.Match }
          else { base2 with
            status := Status.Mismatch
            discrepancy := some |po - entry.price|
            error_value := |po - entry.price| * q }
        | _, _ => { base2 with status := Status.PriceFormatError }

/-- `compare_with_price_book` (lines 546-781): builds the index, then maps
the loop body over the lines with 1-based line numbers. `knownModels`
stands for `set(price_book['data'].keys())`, whose iteration order Python
leaves unspecified. -/
def compare_with_price_book (extracted : List POItem)
    (priceItems : List PriceItem) (knownModels : List String) :
    List MatchResult :=
  let dict := (buildPriceDict priceItems).1
  extracted.enum.map (fun p => processLine dict knownModels (p.1 + 1) p.2)

/-- Models Python `f"{x:.2f}"` on a price value (exact cents here; the
binary-float rounding of CPython is idealized to round-half-up on ℚ,
which agrees on every value the engine compares in these claims). -/
def fmt2 (q : ℚ) : String :=
  let c : ℤ := round (q * 100)
  let a := c.natAbs
  let fr := a % 100
  (if c < 0 then "-" else "") ++ toString (a / 100) ++ "."
    ++ (if fr < 10 then "0" ++ toString fr else toString fr)

/-- Lines 831-835: the PO price display, `$`-prefixed, two decimals when
parseable, raw otherwise. -/
def fmtPoPrice (v : PyVal) : String :=
  match parseF v with
  | some q => "$" ++ fmt2 q
  | Option.none => "$" ++ pyStr v

/-- Lines 842-846: the book price display (an absent value renders as the
Python `str(None)` through the TypeError fallback). -/
def fmtBookPrice : Option ℚ → String
  | some b => "$" ++ fmt2 b
  | Option.none => "$None"

/-- Line 849: the provenance parenthetical, present only when the row
value is truthy (set and non-zero). -/
def rowParen : Option ℤ → String
  | some n => if n = 0 then "" else " (Row " ++ toString n ++ ")"
  | Option.none => ""

/-- Line 827: the problem-item filter. -/
def isProblem (r : MatchResult) : Bool :=
  r.status == Status.Mismatch || r.status == Status.ModelNotFound

/-- Lines 830-852: the report line appended for one problem item (empty
for the statuses the loop does not render). -/
def problemLine (r : MatchResult) : String :=
  if r.status == Status.Mismatch then
    "PO Line " ++ toString r.po_line_number ++ " - " ++ r.model
      ++ " - PO Price " ++ fmtPoPrice r.po_price
      ++ " - Price Book " ++ fmtBookPrice r.book_price
      ++ rowParen r.price_book_row ++ "\n"
  else if r.status == Status.ModelNotFound then
    "PO Line " ++ toString r.po_line_number ++ " - " ++ r.model
      ++ " - Model not found in price book\n"
  else ""

/-- The fixed report header (lines 818-824). -/
def emailHeader (po_number : String) : String :=
  "Subject: Purchase Order Review - " ++ po_number
    ++ "\n\nHi,\n\nI have reviewed your purchase order (" ++ po_number
    ++ "). The following discrepancies have been found:\n\n"

/-- The full-agreement sentence (line 856). -/
def agreementLine : String :=
  "No price discrepancies found. All prices match our records.\n"

/-- The closing courtesy text (lines 858-860). -/
def closingLine : String :=
  "\nPlease revise these items and resubmit at your convenience. We truly appreciate your business.\n"

/-- `generate_email_report` (lines 814-862); `po_number` is the identifier
already extracted from the filename, and `price_book_name` is accepted but
unused, as in the source. -/
def generate_email_report (results : List MatchResult)
    (price_book_name po_number : String) : String :=
  let problems := results.filter isProblem
  let body := problems.foldl (fun acc r => acc ++ problemLine r)
    (emailHeader po_number)
  (if problems.isEmpty then body ++ agreementLine else body) ++ closingLine

/-- Modelled from the spec: the token heuristic the spec ascribes to the
description pattern — an "alphanumeric run … containing at least one
hyphen or a mixed-case/digit run" (spec §4.2 item 2, claim C4). -/
def specTokenHeuristic (s : String) : Bool :=
  s.toList.contains '-'
    || (s.toList.any Char.isLower && s.toList.any Char.isUpper)
    || s.toList.any Char.isDigit

/-! Helper lemmas. -/

/-- Every branch of the loop body keeps the 1-based line number it was
given. -/
theorem processLine_po_line_number (dict : PriceDict) (km : List String)
    (n : ℕ) (item : POItem) :
    (processLine dict km n item).po_line_number = n := by
  simp only [processLine]
  repeat' split
  all_goals rfl

/-- C5: for every batch of N PO lines the engine returns exactly N
results, in input order, with `po_line_number` the 1-based input
position; no line-level failure drops a line or aborts the batch. -/
theorem C5_completeness (extracted : List POItem)
    (priceItems : List PriceItem) (knownModels : List String) :
    (compare_with_price_book extracted priceItems knownModels).length
        = extracted.length
      ∧ (compare_with_price_book extracted priceItems knownModels).map
          (fun r => r.po_line_number) = List.range' 1 extracted.length := by
  constructor
  · simp [compare_with_price_book, List.enum_length]
  · simp only [compare_with_price_book, List.map_map]
    have h1 : ((fun r => r.po_line_number) ∘
        fun p => processLine (buildPriceDict priceItems).1 knownModels
          (p.1 + 1) p.2) =
        (fun p : ℕ × POItem => p.1 + 1) := by
      funext p
      exact processLine_po_line_number _ _ _ _
    rw [h1]
    have h2 : (fun p : ℕ × POItem => p.1 + 1) =
        (fun n => n + 1) ∘ Prod.fst := rfl
    rw [h2, ← List.map_map, List.enum_map_fst, List.range'_eq_map_range]
    simp [Nat.add_comm]

/-- Association-list lookup distributes over append. -/
theorem lookup_append {β : Type} (d₁ d₂ : List (String × β)) (a : String) :
    (d₁ ++ d₂).lookup a = (d₁.lookup a).or (d₂.lookup a) := by
  induction d₁ with
  | nil => simp [List.lookup]
  | cons p rest ih =>
    by_cases h : a == p.1
    · simp [List.lookup, h]
    · simp [List.lookup, h, ih]

/-- Key membership in an association list is lookup success. -/
theorem lookup_isSome_iff {β : Type} (d : List (String × β)) (a : String) :
    (d.lookup a).isSome = true ↔ a ∈ d.map Prod.fst := by
  induction d with
  | nil => simp [List.lookup]
  | cons p rest ih =>
    by_cases h : a == p.1
    · simp [List.lookup, h]
      exact Or.inl (by simpa using h)
    · simp [List.lookup, h, ih]
      intro he
      simp [he] at h

/-- First-occurrence semantics of the index build, generalized over the
accumulated dict. -/
theorem buildPriceAux_lookup (its : List PriceItem) (d : PriceDict)
    (m : String) :
    ((buildPriceAux d its).1.lookup m)
      = (d.lookup m).or
          ((its.find? (fun it => it.model_number == m)).map mkEntry) := by
  induction its generalizing d with
  | nil => simp [buildPriceAux]
  | cons it rest ih =>
    simp only [buildPriceAux]
    split
    · rename_i hs
      rw [ih, List.find?_cons]
      cases hm : it.model_number == m with
      | true =>
        have hmm : it.model_number = m := by simpa using hm
        have hsm : (d.lookup m).isSome = true := by rw [← hmm]; exact hs
        cases hd : d.lookup m with
        | none => rw [hd] at hsm; simp at hsm
        | some v => simp [Option.or]
      | false => rfl
    · rename_i hs
      rw [ih, lookup_append, List.find?_cons]
      cases hm : it.model_number == m with
      | true =>
        have hmm : it.model_number = m := by simpa using hm
        have hd : d.lookup m = Option.none := by
          cases h : d.lookup m with
          | none => rfl
          | some v => rw [← hmm] at h; simp [h] at hs
        have hone : ([(it.model_number, mkEntry it)].lookup m)
            = some (mkEntry it) := by
          simp [List.lookup, hmm]
        rw [hd, hone, Option.none_or, Option.none_or]
        simp [Option.or]
      | false =>
        have hone : ([(it.model_number, mkEntry it)].lookup m)
            = Option.none := by
          have hne : it.model_number ≠ m := by simpa using hm
          have : (m == it.model_number) = false := by
            simp
            exact fun h => hne h.symm
          simp [List.lookup, this]
        rw [hone, Option.or_none]

/-- `laterDups` depends on the seen list only through membership. -/
theorem laterDups_congr (l : List PriceItem) :
    ∀ s₁ s₂ : List String, (∀ a, a ∈ s₁ ↔ a ∈ s₂) →
      laterDups s₁ l = laterDups s₂ l := by
  induction l with
  | nil => intro s₁ s₂ _; rfl
  | cons it rest ih =>
    intro s₁ s₂ h
    simp only [laterDups]
    by_cases hm : it.model_number ∈ s₁
    · rw [if_pos hm, if_pos ((h _).mp hm), ih s₁ s₂ h]
    · rw [if_neg hm, if_neg (fun hc => hm ((h _).mpr hc))]
      refine ih _ _ ?h
      intro a
      simp only [List.mem_cons]
      exact or_congr Iff.rfl (h a)

/-- The warnings emitted by the index build are exactly the later
duplicates, generalized over the accumulated dict. -/
theorem buildPriceAux_warns (its : List PriceItem) (d : PriceDict) :
    (buildPriceAux d its).2 = laterDups (d.map Prod.fst) its := by
  induction its generalizing d with
  | nil => rfl
  | cons it rest ih =>
    simp only [buildPriceAux, laterDups]
    split
    · rename_i hs
      rw [if_pos ((lookup_isSome_iff d it.model_number).mp hs)]
      simp [ih]
    · rename_i hs
      have hnm : it.model_number ∉ d.map Prod.fst := by
        intro hc
        exact hs ((lookup_isSome_iff d it.model_number).mpr hc)
      rw [if_neg hnm, ih]
      refine laterDups_congr rest _ _ ?h
      intro a
      simp [Or.comm]

/-- C6: for raw price-item lists with repeated model numbers the index
keeps the first-encountered entry (price, row, source column) and each
later duplicate is discarded and warned about. -/
theorem C6_index_first_wins (items : List PriceItem) :
    (∀ m, ((buildPriceDict items).1.lookup m)
        = (items.find? (fun it => it.model_number == m)).map mkEntry)
      ∧ (buildPriceDict items).2 = laterDups [] items := by
  constructor
  · intro m
    rw [buildPriceDict, buildPriceAux_lookup]
    simp [List.lookup]
  · rw [buildPriceDict, buildPriceAux_warns]
    rfl

/-- Cons unfolding for association-list lookup. -/
theorem lookup_cons {β : Type} (k : String) (b : β)
    (es : List (String × β)) (a : String) :
    (((k, b) :: es).lookup a) = if a == k then some b else es.lookup a := by
  cases h : a == k <;> simp [List.lookup, h]

/-- Lookup after replacing every pair keyed `k` by `(k, v)`. -/
theorem lookup_map_replace (rest : List (String × String)) (k v a : String) :
    (rest.map (fun p => if p.1 = k then (k, v) else p)).lookup a
      = if a = k then
          (if (rest.lookup k).isSome then some v else Option.none)
        else rest.lookup a := by
  induction rest with
  | nil =>
    simp only [List.map_nil]
    by_cases hak : a = k <;> simp [List.lookup, hak]
  | cons p rest ih =>
    obtain ⟨pk, pv⟩ := p
    simp only [List.map_cons]
    by_cases hpk : pk = k
    · subst hpk
      by_cases hak : a = pk
      · subst hak
        simp [lookup_cons, ih]
      · simp [lookup_cons, ih, hak]
    · by_cases hak : a = k
      · subst hak
        have hap : ¬a = pk := fun h => hpk h.symm
        have hb : (a == pk) = false := by simpa using hap
        simp [lookup_cons, ih, hpk, hap, hb]
        rw [lookup_cons, hb]
        simp
      · by_cases hap : a = pk
        · subst hap
          simp [lookup_cons, ih, hpk, hak]
        · simp [lookup_cons, ih, hpk, hak, hap]

/-- Lookup after dict assignment `d[k] = v`. -/
theorem lookup_insertOverwrite (d : List (String × String)) (k v a : String) :
    (insertOverwrite d k v).lookup a
      = if a = k then some v else d.lookup a := by
  simp only [insertOverwrite]
  split
  · rename_i hs
    rw [lookup_map_replace]
    by_cases hak : a = k
    · rw [if_pos hak, if_pos hak, if_pos hs]
    · rw [if_neg hak, if_neg hak]
  · rename_i hs
    rw [lookup_append]
    by_cases hak : a = k
    · have hd : d.lookup a = Option.none := by
        cases h : d.lookup a with
        | none => rfl
        | some w => rw [hak] at h; simp [h] at hs
      rw [if_pos hak, hd, Option.none_or, lookup_cons,
        if_pos (by simpa using hak)]
    · rw [if_neg hak, lookup_cons, if_neg (by simpa using hak)]
      simp [List.lookup, Option.or_none]

/-- Lookup in the dash-removed map, generalized over the accumulator:
the last key whose dash-stripped form is `a` wins, falling back to the
accumulator. -/
theorem dashlessAux_lookup (keys : List String)
    (acc : List (String × String)) (a : String) :
    (dashlessAux acc keys).lookup a
      = (keys.reverse.find? (fun m => removeDashes m == a)).or
          (acc.lookup a) := by
  induction keys generalizing acc with
  | nil => simp [dashlessAux]
  | cons k rest ih =>
    simp only [dashlessAux, List.reverse_cons]
    rw [ih, List.find?_append, Option.or_assoc]
    congr 1
    rw [lookup_insertOverwrite]
    by_cases h : removeDashes k = a
    · have hb : (removeDashes k == a) = true := by simpa using h
      have hf : ([k].find? (fun m => removeDashes m == a)) = some k := by
        rw [List.find?_cons, hb]
      rw [hf, if_pos h.symm]
      simp [Option.or]
    · have hb : (removeDashes k == a) = false := by simpa using h
      have hf : ([k].find? (fun m => removeDashes m == a)) = Option.none := by
        rw [List.find?_cons, hb]
        rfl
      rw [hf, if_neg (fun hc => h hc.symm), Option.none_or]

/-- C10: the dash-removal stage's rejection branch is unreachable — every
hit in the dash-removed map already satisfies the exact-equality guard,
because the map keys are by construction the dash-stripped forms of their
values; and when several price-book models share a dash-stripped form the
map holds the one encountered last in index order. -/
theorem C10_dash_rejection_unreachable (dict : PriceDict) :
    (∀ a, (dashlessPriceBook dict).lookup a
        = (dict.map Prod.fst).reverse.find? (fun m => removeDashes m == a))
      ∧ (∀ a orig, (dashlessPriceBook dict).lookup a = some orig →
          removeDashes orig = a)
      ∧ (∀ m, ((dashlessPriceBook dict).lookup (removeDashes m)).isSome = true →
          (step4One (dashlessPriceBook dict) m).isSome = true) := by
  have hmain : ∀ a, (dashlessPriceBook dict).lookup a
      = (dict.map Prod.fst).reverse.find? (fun m => removeDashes m == a) := by
    intro a
    rw [dashlessPriceBook, dashlessAux_lookup]
    simp [List.lookup]
  have hguard : ∀ a orig, (dashlessPriceBook dict).lookup a = some orig →
      removeDashes orig = a := by
    intro a orig h
    rw [hmain a] at h
    simpa using List.find?_some h
  refine ⟨hmain, hguard, ?h3⟩
  intro m hs
  cases h : (dashlessPriceBook dict).lookup (removeDashes m) with
  | none => rw [h] at hs; simp at hs
  | some orig =>
    have hg := hguard _ _ h
    unfold step4One
    rw [h]
    show (if removeDashes m = removeDashes orig
        then some (m, orig) else Option.none).isSome = true
    rw [if_pos hg.symm]
    rfl

/-- The de-duplication loop returns a list without duplicates, none of
whose members were already seen. -/
theorem dedupFirstAux_nodup (l : List String) :
    ∀ seen, (dedupFirstAux seen l).Nodup
      ∧ ∀ a ∈ dedupFirstAux seen l, a ∉ seen := by
  induction l with
  | nil => intro seen; simp [dedupFirstAux]
  | cons m rest ih =>
    intro seen
    simp only [dedupFirstAux]
    by_cases hm : m ∈ seen
    · simpa [hm] using ih seen
    · rw [if_neg hm]
      refine ⟨List.nodup_cons.mpr ⟨?h1, (ih (m :: seen)).1⟩, ?h2⟩
      · intro hc
        exact ((ih (m :: seen)).2 m hc) (List.mem_cons_self m seen)
      · intro a ha
        rcases List.mem_cons.mp ha with h | h
        · exact h ▸ hm
        · exact fun hc => (ih (m :: seen)).2 a h (List.mem_cons_of_mem m hc)

/-- The de-duplication loop preserves order: its output is a sublist. -/
theorem dedupFirstAux_sublist (l : List String) :
    ∀ seen, (dedupFirstAux seen l).Sublist l := by
  induction l with
  | nil => intro seen; simp [dedupFirstAux]
  | cons m rest ih =>
    intro seen
    simp only [dedupFirstAux]
    by_cases hm : m ∈ seen
    · rw [if_pos hm]
      exact (ih seen).cons m
    · rw [if_neg hm]
      exact (ih (m :: seen)).cons₂ m

/-- Membership through the de-duplication loop. -/
theorem dedupFirstAux_mem (l : List String) :
    ∀ seen a, a ∈ dedupFirstAux seen l ↔ (a ∈ l ∧ a ∉ seen) := by
  induction l with
  | nil => intro seen a; simp [dedupFirstAux]
  | cons m rest ih =>
    intro seen a
    simp only [dedupFirstAux]
    by_cases hm : m ∈ seen
    · rw [if_pos hm, ih]
      simp only [List.mem_cons]
      constructor
      · exact fun ⟨h1, h2⟩ => ⟨Or.inr h1, h2⟩
      · rintro ⟨h1 | h1, h2⟩
        · exact absurd (h1 ▸ hm) h2
        · exact ⟨h1, h2⟩
    · rw [if_neg hm]
      simp only [List.mem_cons, ih]
      constructor
      · rintro (h | ⟨h1, h2⟩)
        · exact ⟨Or.inl h, h ▸ hm⟩
        · exact ⟨Or.inr h1, fun hc => h2 (Or.inr hc)⟩
      · rintro ⟨h1 | h1, h2⟩
        · exact Or.inl h1
        · by_cases ham : a = m
          · exact Or.inl ham
          · exact Or.inr ⟨h1, by simp [ham, h2]⟩

/-- C4 (amended): the candidate list is the first-occurrence
de-duplication of the four source groups in order — primary model,
pattern-1 tokens, known models occurring as substrings, pattern-2 BW
tokens: it has no duplicates, preserves the source order, and contains
exactly the source elements. -/
theorem C4_candidate_construction (item : POItem) (knownModels : List String) :
    (allPotentialModels item knownModels).Nodup
      ∧ (allPotentialModels item knownModels).Sublist
          (candidateSources item knownModels)
      ∧ ∀ a, a ∈ allPotentialModels item knownModels
          ↔ a ∈ candidateSources item knownModels := by
  refine ⟨(dedupFirstAux_nodup _ []).1, dedupFirstAux_sublist _ [], ?h⟩
  intro a
  rw [allPotentialModels, dedupFirst, dedupFirstAux_mem]
  simp

/-- C4 (counterexample): with no primary model and no known models, the
description "abcdef" yields the candidate "abcdef", a token with no
hyphen, no digit and a single letter case — the spec's stated pattern
would produce no candidate at all. -/
theorem C4_counterexample :
    allPotentialModels
        { model := Option.none, price := some (PyVal.str "1"),
          quantity := Option.none, description := some "abcdef" } []
      = ["abcdef"]
      ∧ specTokenHeuristic "abcdef" = false := by
  constructor
  · with_unfolding_all rfl
  · with_unfolding_all rfl

/-- C8 (amended): a STEP 4 match is accepted only when the dash-stripped
candidate — or its BW/B-stripped base, for the prefixed variants — is
character-identical to the dash-stripped canonical model it is matched
to. (Distinct dashed models sharing a dash-stripped form can still be
conflated; see the counterexample.) -/
theorem C8_dash_removal_soundness (dl : List (String × String))
    (models : List String) (m orig : String)
    (h : step4 dl models = some (m, orig)) :
    removeDashes m = removeDashes orig
      ∨ (pyStartsWith m "BW" = true
          ∧ removeDashes (pyDrop 2 m) = removeDashes orig)
      ∨ (pyStartsWith m "B" = true
          ∧ removeDashes (pyDrop 1 m) = removeDashes orig) := by
  induction models with
  | nil => simp [step4] at h
  | cons c rest ih =>
    simp only [step4] at h
    revert h
    split
    · rename_i r hone
      intro h
      have hr : r = (m, orig) := by
        cases h
        rfl
      subst hr
      revert hone
      unfold step4One
      split
      · rename_i o1 hl1
        split
        · rename_i hg1
          intro he
          cases he
          exact Or.inl hg1
        · intro he
          cases he
      · split
        · rename_i o2 hl2
          split
          · rename_i hg2
            have hbw : pyStartsWith c "BW" = true := by
              revert hl2
              split
              · rename_i hc
                intro hl2
                exact hc
              · intro hl2
                cases hl2
            intro he
            cases he
            exact Or.inr (Or.inl ⟨hbw, hg2⟩)
          · intro he
            cases he
        · split
          · rename_i o3 hl3
            split
            · rename_i hg3
              have hb : pyStartsWith c "B" = true := by
                revert hl3
                split
                · rename_i hc
                  intro hl3
                  exact (Bool.and_eq_true _ _ |>.mp hc).1
                · intro hl3
                  cases hl3
              intro he
              cases he
              exact Or.inr (Or.inr ⟨hb, hg3⟩)
            · intro he
              cases he
          · intro he
            cases he
    · intro h
      exact ih h

/-- C8 (witness): the soundness theorem applied to a one-entry dashless
map and a dashed candidate. -/
theorem C8_dash_removal_soundness_witness :
    removeDashes "D-EF11" = removeDashes "DE-F11"
      ∨ (pyStartsWith "D-EF11" "BW" = true
          ∧ removeDashes (pyDrop 2 "D-EF11") = removeDashes "DE-F11")
      ∨ (pyStartsWith "D-EF11" "B" = true
          ∧ removeDashes (pyDrop 1 "D-EF11") = removeDashes "DE-F11") :=
  C8_dash_removal_soundness
    (dashlessPriceBook
      (buildPriceDict [{ model_number := "DE-F11", price := 1 }]).1)
    ["D-EF11"] "D-EF11" "DE-F11" (by with_unfolding_all rfl)

/-- C8 (counterexample): the candidate "A-BC" is matched by STEP 4 to the
price-book model "AB-C" — two distinct dashed models are conflated, and
the engine reports the book price of "AB-C" for the line; the guard does
not prevent this. -/
theorem C8_counterexample :
    step4
        (dashlessPriceBook
          (buildPriceDict [{ model_number := "AB-C", price := 2 }]).1)
        ["A-BC"]
      = some ("A-BC", "AB-C")
      ∧ "A-BC" ≠ "AB-C"
      ∧ (compare_with_price_book
            [{ model := some "A-BC", price := some (PyVal.str "1") }]
            [{ model_number := "AB-C", price := 2 }] ["AB-C"]).map
          (fun r => (r.model, r.status, r.book_price))
        = [("A-BC", Status.Mismatch, some 2)] := by
  refine ⟨?h1, ?h2, ?h3⟩
  · with_unfolding_all rfl
  · with_unfolding_all decide
  · with_unfolding_all rfl

/-- Every branch of the loop body keeps the quantity it read (line 584). -/
theorem processLine_quantity (dict : PriceDict) (km : List String)
    (n : ℕ) (item : POItem) :
    (processLine dict km n item).quantity
      = item.quantity.getD (PyVal.num 1) := by
  simp only [processLine]
  repeat' split
  all_goals rfl

/-- "BW" is a prefix only where "B" is. -/
theorem pyStartsWith_B_of_BW (m : String) (h : pyStartsWith m "BW" = true) :
    pyStartsWith m "B" = true := by
  revert h
  simp only [pyStartsWith]
  cases hl : m.toList with
  | nil => intro h; cases h
  | cons c rest =>
    simp only [startsWithChars]
    intro h
    have := (Bool.and_eq_true _ _).mp h
    simp [this.1]

/-- Status of a line whose non-empty primary model, not "B"-prefixed, is
itself an index key: STEP 1 matches it, the lookup resolves, and the
status is decided by the price and quantity parses. -/
theorem processLine_exact_status (dict : PriceDict) (km : List String)
    (n : ℕ) (item : POItem) (m : String) (pv : PyVal) (e : PBEntry)
    (hm : item.model = some m) (hne : ¬m = "")
    (hb : pyStartsWith m "B" = false)
    (hp : item.price = some pv) (he : dict.lookup m = some e) :
    (processLine dict km n item).status =
      match parseF pv, parseF (item.quantity.getD (PyVal.num 1)) with
      | some p, some _ =>
          if p = e.price then Status.Match else Status.Mismatch
      | _, _ => Status.PriceFormatError := by
  have hcs : candidateSources item km
      = m :: (match item.description with
          | some d =>
            if d = "" then [] else
              findallTokens d.toList
              ++ km.filter (fun mm => containsChars d.toList mm.toList)
              ++ findallBW d.toList
          | Option.none => []) := by
    simp only [candidateSources, hm, if_neg hne, List.singleton_append]
  obtain ⟨rest, hallEq⟩ : ∃ rest, allPotentialModels item km = m :: rest := by
    rw [allPotentialModels, hcs, dedupFirst]
    simp only [dedupFirstAux]
    rw [if_neg (List.not_mem_nil m)]
    exact ⟨_, rfl⟩
  have hs1 : step1 dict (m :: rest) = some m := by
    unfold step1
    exact List.find?_cons_of_pos rest (by simp [he])
  have hcas : matchCascade dict (m :: rest) = some (m, Option.none) := by
    unfold matchCascade
    rw [hs1]
  have hbw : pyStartsWith m "BW" = false := by
    cases h : pyStartsWith m "BW" with
    | false => rfl
    | true => rw [pyStartsWith_B_of_BW m h] at hb; cases hb
  have hlm : lookupModelOf m Option.none = m := by
    simp [lookupModelOf, hbw, hb]
  simp only [processLine, hp, hallEq, hcas, hlm, he]
  cases hpp : parseF pv with
  | none =>
    cases hq : parseF (item.quantity.getD (PyVal.num 1)) <;> simp
  | some p =>
    cases hq : parseF (item.quantity.getD (PyVal.num 1)) with
    | none => simp
    | some q => by_cases hpe : p = e.price <;> simp [hpe]

/-- C1 (amended): for every PO line with a numeric price, a parseable (or
absent) quantity, and a non-empty `raw_model` that is exactly an index key
and does not start with "B", the status is `Match` iff the parsed price
equals that key's book price. (For keys starting with "B" or "BW" the
code strips the prefix before the price lookup even after an exact match;
see the counterexample.) -/
theorem C1_exact_match_correctness (extracted : List POItem)
    (priceItems : List PriceItem) (km : List String) (i : ℕ) (item : POItem)
    (m : String) (pv : PyVal) (p q : ℚ) (e : PBEntry)
    (hline : extracted[i]? = some item)
    (hm : item.model = some m) (hne : ¬m = "")
    (hb : pyStartsWith m "B" = false)
    (hp : item.price = some pv) (hpp : parseF pv = some p)
    (hq : parseF (item.quantity.getD (PyVal.num 1)) = some q)
    (he : (buildPriceDict priceItems).1.lookup m = some e) :
    ∃ r, (compare_with_price_book extracted priceItems km)[i]? = some r
      ∧ (r.status = Status.Match ↔ p = e.price) := by
  refine ⟨processLine (buildPriceDict priceItems).1 km (i + 1) item, ?h1, ?h2⟩
  · unfold compare_with_price_book
    rw [List.getElem?_map, List.getElem?_enum, hline]
    rfl
  · rw [processLine_exact_status (buildPriceDict priceItems).1 km (i + 1)
      item m pv e hm hne hb hp he, hpp, hq]
    by_cases hpe : p = e.price <;> simp [hpe]

/-- C1 (witness): a line whose model "XYZ19" is an exact key with equal
prices is a `Match`. -/
theorem C1_exact_match_correctness_witness :
    ∃ r, (compare_with_price_book
        [{ model := some "XYZ19", price := some (PyVal.str "7") }]
        [{ model_number := "XYZ19", price := 7 }] ["XYZ19"])[0]? = some r
      ∧ (r.status = Status.Match ↔ (7 : ℚ)
          = ({ price := 7, excel_row := Option.none,
               source_column := "Unknown" } : PBEntry).price) :=
  C1_exact_match_correctness
    [{ model := some "XYZ19", price := some (PyVal.str "7") }]
    [{ model_number := "XYZ19", price := 7 }] ["XYZ19"] 0
    { model := some "XYZ19", price := some (PyVal.str "7") }
    "XYZ19" (PyVal.str "7") 7 1
    { price := 7, excel_row := Option.none, source_column := "Unknown" }
    (by with_unfolding_all rfl) rfl (by simp) (by with_unfolding_all rfl)
    rfl (by with_unfolding_all rfl) (by with_unfolding_all rfl)
    (by with_unfolding_all rfl)

/-- C1 (counterexample): the line's `raw_model` "BWABC" is exactly an
index key with book price 10 and the PO price parses to the same 10, yet
the status is `Lookup Error`, not `Match` — after the exact match the
code strips the "BW" prefix for the price lookup and "ABC" is not a key. -/
theorem C1_counterexample :
    (compare_with_price_book
        [{ model := some "BWABC", price := some (PyVal.str "10") }]
        [{ model_number := "BWABC", price := 10 }] ["BWABC"]).map
      (fun r => r.status) = [Status.LookupError]
    ∧ parseF (PyVal.str "10") = some 10
    ∧ Status.LookupError ≠ Status.Match := by
  refine ⟨?h1, ?h2, ?h3⟩
  · with_unfolding_all rfl
  · with_unfolding_all rfl
  · with_unfolding_all decide

/-- C3 (amended): `Price Format Error` arises exactly on matched lines
(book price resolved) where the PO price or the quantity fails numeric
parsing; the quantity defaults to 1 only when the field is absent — a
present but unparseable quantity yields `Price Format Error`, not the
default. -/
theorem C3_price_format_error_characterization (dict : PriceDict)
    (km : List String) (n : ℕ) (item : POItem) :
    ((processLine dict km n item).status = Status.PriceFormatError ↔
      ((processLine dict km n item).book_price.isSome = true
        ∧ (parseF (item.price.getD (PyVal.str "Extraction Issue"))
              = Option.none
           ∨ parseF (item.quantity.getD (PyVal.num 1)) = Option.none)))
    ∧ (item.quantity = Option.none →
        (processLine dict km n item).quantity = PyVal.num 1) := by
  constructor
  · simp only [processLine]
    split
    · rename_i hp
      simp [hp]
    · rename_i pv hp
      split
      · simp [hp]
      · rename_i md hcas
        split
        · simp [hp]
        · rename_i entry hlk
          split
          · rename_i p q hpp hq
            split <;> simp [hp, hpp, hq]
          · rename_i hcatch
            cases hpp : parseF pv with
            | none => simp [hp, hpp]
            | some p =>
              cases hq : parseF (item.quantity.getD (PyVal.num 1)) with
              | none => simp [hp, hpp, hq]
              | some q => cases hcatch p q hpp hq
  · intro h
    rw [processLine_quantity, h]
    rfl

/-- C3 (witness): a matched line with absent quantity keeps the default
quantity 1, and its parsed prices make the status characterization
concrete. -/
theorem C3_price_format_error_witness :
    ((processLine (buildPriceDict [{ model_number := "M7", price := 5 }]).1
        ["M7"] 1 { model := some "M7", price := some (PyVal.str "5") }).status
          = Status.PriceFormatError ↔
      ((processLine (buildPriceDict [{ model_number := "M7", price := 5 }]).1
          ["M7"] 1
          { model := some "M7", price := some (PyVal.str "5") }).book_price.isSome
            = true
        ∧ (parseF ((some (PyVal.str "5")).getD (PyVal.str "Extraction Issue"))
              = Option.none
           ∨ parseF ((Option.none : Option PyVal).getD (PyVal.num 1))
              = Option.none)))
    ∧ (processLine (buildPriceDict [{ model_number := "M7", price := 5 }]).1
        ["M7"] 1 { model := some "M7", price := some (PyVal.str "5") }).quantity
      = PyVal.num 1 :=
  ⟨(C3_price_format_error_characterization
      (buildPriceDict [{ model_number := "M7", price := 5 }]).1 ["M7"] 1
      { model := some "M7", price := some (PyVal.str "5") }).1,
   (C3_price_format_error_characterization
      (buildPriceDict [{ model_number := "M7", price := 5 }]).1 ["M7"] 1
      { model := some "M7", price := some (PyVal.str "5") }).2 rfl⟩

/-- C3 (counterexample): both prices are present, numeric and equal, but
the present quantity "x" is unparseable, so the line gets
`Price Format Error` — the quantity is not defaulted to 1 and the
classification does not succeed, contrary to the claim. -/
theorem C3_counterexample :
    (compare_with_price_book
        [{ model := some "M", price := some (PyVal.str "5"),
           quantity := some (PyVal.str "x") }]
        [{ model_number := "M", price := 5 }] ["M"]).map (fun r => r.status)
      = [Status.PriceFormatError]
    ∧ parseF (PyVal.str "5") = some 5
    ∧ ((5 : ℚ)) = ({ model_number := "M", price := 5 } : PriceItem).price := by
  refine ⟨?h1, ?h2, ?h3⟩
  · with_unfolding_all rfl
  · with_unfolding_all rfl
  · rfl

/-- Per-line discrepancy and error-value invariants. -/
theorem processLine_discrepancy_invariants (dict : PriceDict)
    (km : List String) (n : ℕ) (item : POItem) :
    ((processLine dict km n item).discrepancy.isSome = true
        ↔ (processLine dict km n item).status = Status.Mismatch)
      ∧ ((processLine dict km n item).status = Status.Mismatch →
          ∃ p b q, parseF (processLine dict km n item).po_price = some p
            ∧ (processLine dict km n item).book_price = some b
            ∧ parseF (processLine dict km n item).quantity = some q
            ∧ (processLine dict km n item).discrepancy = some |p - b|
            ∧ 0 ≤ |p - b|
            ∧ (processLine dict km n item).error_value = |p - b| * q)
      ∧ ((processLine dict km n item).status ≠ Status.Mismatch →
          (processLine dict km n item).error_value = 0) := by
  simp only [processLine]
  split
  · rename_i hp
    simp
  · rename_i pv hp
    split
    · simp
    · rename_i md hcas
      split
      · simp
      · rename_i entry hlk
        split
        · rename_i p q hpp hq
          split
          · rename_i hpe
            simp
          · rename_i hpe
            refine ⟨by simp, fun _ => ⟨p, entry.price, q, ?hx⟩, by simp⟩
            simp [hp, hpp, hq, abs_nonneg]
        · rename_i hcatch
          simp

/-- C7: in every result, `discrepancy` is set iff the status is
`Mismatch`, and then it equals the non-negative `|po_price − book_price|`
with `error_value = discrepancy × quantity`; for every other status the
`error_value` is 0. -/
theorem C7_discrepancy_invariants (extracted : List POItem)
    (priceItems : List PriceItem) (km : List String) (r : MatchResult)
    (hr : r ∈ compare_with_price_book extracted priceItems km) :
    (r.discrepancy.isSome = true ↔ r.status = Status.Mismatch)
      ∧ (r.status = Status.Mismatch →
          ∃ p b q, parseF r.po_price = some p
            ∧ r.book_price = some b
            ∧ parseF r.quantity = some q
            ∧ r.discrepancy = some |p - b|
            ∧ 0 ≤ |p - b|
            ∧ r.error_value = |p - b| * q)
      ∧ (r.status ≠ Status.Mismatch → r.error_value = 0) := by
  unfold compare_with_price_book at hr
  obtain ⟨pr, _, hpr⟩ := List.mem_map.mp hr
  rw [← hpr]
  exact processLine_discrepancy_invariants _ km (pr.1 + 1) pr.2

/-- C7 (witness): the invariants hold for the single result of a concrete
mismatching batch. -/
theorem C7_discrepancy_invariants_witness :
    ((processLine (buildPriceDict [{ model_number := "Q2", price := 5 }]).1
          ["Q2"] 1
          { model := some "Q2", price := some (PyVal.str "7"),
            quantity := some (PyVal.num 2) }).discrepancy.isSome = true
        ↔ (processLine (buildPriceDict [{ model_number := "Q2", price := 5 }]).1
            ["Q2"] 1
            { model := some "Q2", price := some (PyVal.str "7"),
              quantity := some (PyVal.num 2) }).status = Status.Mismatch)
      ∧ ((processLine (buildPriceDict [{ model_number := "Q2", price := 5 }]).1
            ["Q2"] 1
            { model := some "Q2", price := some (PyVal.str "7"),
              quantity := some (PyVal.num 2) }).status = Status.Mismatch →
          ∃ p b q, parseF (processLine
              (buildPriceDict [{ model_number := "Q2", price := 5 }]).1
              ["Q2"] 1
              { model := some "Q2", price := some (PyVal.str "7"),
                quantity := some (PyVal.num 2) }).po_price = some p
            ∧ (processLine
                (buildPriceDict [{ model_number := "Q2", price := 5 }]).1
                ["Q2"] 1
                { model := some "Q2", price := some (PyVal.str "7"),
                  quantity := some (PyVal.num 2) }).book_price = some b
            ∧ parseF (processLine
                (buildPriceDict [{ model_number := "Q2", price := 5 }]).1
                ["Q2"] 1
                { model := some "Q2", price := some (PyVal.str "7"),
                  quantity := some (PyVal.num 2) }).quantity = some q
            ∧ (processLine
                (buildPriceDict [{ model_number := "Q2", price := 5 }]).1
                ["Q2"] 1
                { model := some "Q2", price := some (PyVal.str "7"),
                  quantity := some (PyVal.num 2) }).discrepancy = some |p - b|
            ∧ 0 ≤ |p - b|
            ∧ (processLine
                (buildPriceDict [{ model_number := "Q2", price := 5 }]).1
                ["Q2"] 1
                { model := some "Q2", price := some (PyVal.str "7"),
                  quantity := some (PyVal.num 2) }).error_value = |p - b| * q)
      ∧ ((processLine (buildPriceDict [{ model_number := "Q2", price := 5 }]).1
            ["Q2"] 1
            { model := some "Q2", price := some (PyVal.str "7"),
              quantity := some (PyVal.num 2) }).status ≠ Status.Mismatch →
          (processLine (buildPriceDict [{ model_number := "Q2", price := 5 }]).1
            ["Q2"] 1
            { model := some "Q2", price := some (PyVal.str "7"),
              quantity := some (PyVal.num 2) }).error_value = 0) :=
  C7_discrepancy_invariants
    [{ model := some "Q2", price := some (PyVal.str "7"),
       quantity := some (PyVal.num 2) }]
    [{ model_number := "Q2", price := 5 }] ["Q2"]
    (processLine (buildPriceDict [{ model_number := "Q2", price := 5 }]).1
      ["Q2"] 1
      { model := some "Q2", price := some (PyVal.str "7"),
        quantity := some (PyVal.num 2) })
    (by with_unfolding_all decide)

/-- C2 (amended): every produced status is one of exactly six values —
the five claimed ones plus `Lookup Error`, which arises when a matched
model starting with "B"/"BW" has its prefix-stripped lookup key absent
from the index — and each of the six is actually producible. -/
theorem C2_status_values :
    (∀ (extracted : List POItem) (priceItems : List PriceItem)
        (km : List String) (r : MatchResult),
        r ∈ compare_with_price_book extracted priceItems km →
        r.status ∈ [Status.Match, Status.Mismatch, Status.ModelNotFound,
          Status.DataExtractionIssue, Status.PriceFormatError,
          Status.LookupError])
      ∧ (∀ s : Status, ∃ (extracted : List POItem)
          (priceItems : List PriceItem) (km : List String),
          (compare_with_price_book extracted priceItems km).map
            (fun r => r.status) = [s]) := by
  constructor
  · intro _ _ _ r _
    cases r.status <;> simp
  · intro s
    cases s with
    | Match =>
      exact ⟨[{ model := some "M", price := some (PyVal.str "5") }],
        [{ model_number := "M", price := 5 }], ["M"],
        by with_unfolding_all rfl⟩
    | Mismatch =>
      exact ⟨[{ model := some "M", price := some (PyVal.str "6") }],
        [{ model_number := "M", price := 5 }], ["M"],
        by with_unfolding_all rfl⟩
    | ModelNotFound =>
      exact ⟨[{ model := some "Q", price := some (PyVal.str "1") }], [], [],
        by with_unfolding_all rfl⟩
    | DataExtractionIssue =>
      exact ⟨[{}], [], [], by with_unfolding_all rfl⟩
    | PriceFormatError =>
      exact ⟨[{ model := some "M", price := some (PyVal.str "x") }],
        [{ model_number := "M", price := 5 }], ["M"],
        by with_unfolding_all rfl⟩
    | LookupError =>
      exact ⟨[{ model := some "BXX", price := some (PyVal.str "5") }],
        [{ model_number := "BXX", price := 5 }], ["BXX"],
        by with_unfolding_all rfl⟩

/-- C2 (witness): the six-value bound applied to the single result of a
concrete empty-extraction batch. -/
theorem C2_status_values_witness :
    (processLine (buildPriceDict []).1 [] 1 ({} : POItem)).status
      ∈ [Status.Match, Status.Mismatch, Status.ModelNotFound,
        Status.DataExtractionIssue, Status.PriceFormatError,
        Status.LookupError] :=
  C2_status_values.1 [{}] [] [] (processLine (buildPriceDict []).1 [] 1 {})
    (by with_unfolding_all decide)

/-- C2 (counterexample): a line whose model "BXX" is itself an index key
produces the sixth status "Lookup Error", outside the claimed five. -/
theorem C2_counterexample :
    (compare_with_price_book
        [{ model := some "BXX", price := some (PyVal.str "5") }]
        [{ model_number := "BXX", price := 5 }] ["BXX"]).map
      (fun r => r.status) = [Status.LookupError]
    ∧ Status.LookupError ∉ [Status.Match, Status.Mismatch,
        Status.ModelNotFound, Status.DataExtractionIssue,
        Status.PriceFormatError] := by
  constructor
  · with_unfolding_all rfl
  · with_unfolding_all decide

/-- Concatenation of a list of report lines. -/
def concatStrings : List String → String
  | [] => ""
  | s :: rest => s ++ concatStrings rest

/-- C9 (amended): the report is the header, then exactly one line per
`Mismatch`/`ModelNotFound` result in original order — for `Mismatch` the
`PO Price`/`Price Book` detail with prices formatted to two decimals
(raw when unparseable) and a " (Row N)" parenthetical only when the row
is set and non-zero, for `ModelNotFound` the fixed not-found detail —
then the full-agreement sentence exactly when there are no problem
items, then the closing courtesy line. -/
theorem C9_report_structure (results : List MatchResult) (pbn po : String) :
    generate_email_report results pbn po
      = emailHeader po
        ++ concatStrings ((results.filter isProblem).map (fun r =>
            if r.status = Status.Mismatch then
              "PO Line " ++ toString r.po_line_number ++ " - " ++ r.model
                ++ " - PO Price " ++ fmtPoPrice r.po_price
                ++ " - Price Book " ++ fmtBookPrice r.book_price
                ++ rowParen r.price_book_row ++ "\n"
            else
              "PO Line " ++ toString r.po_line_number ++ " - " ++ r.model
                ++ " - Model not found in price book\n"))
        ++ (if results.filter isProblem = [] then agreementLine else "")
        ++ closingLine := by
  have hfold : ∀ (l : List MatchResult) (init : String),
      l.foldl (fun acc r => acc ++ problemLine r) init
        = init ++ concatStrings (l.map problemLine) := by
    intro l
    induction l with
    | nil => intro init; simp [concatStrings]
    | cons r rest ih =>
      intro init
      simp only [List.foldl_cons, List.map_cons, concatStrings]
      rw [ih, String.append_assoc]
  have hmap : (results.filter isProblem).map problemLine
      = (results.filter isProblem).map (fun r =>
          if r.status = Status.Mismatch then
            "PO Line " ++ toString r.po_line_number ++ " - " ++ r.model
              ++ " - PO Price " ++ fmtPoPrice r.po_price
              ++ " - Price Book " ++ fmtBookPrice r.book_price
              ++ rowParen r.price_book_row ++ "\n"
          else
            "PO Line " ++ toString r.po_line_number ++ " - " ++ r.model
              ++ " - Model not found in price book\n") := by
    refine List.map_congr_left ?h
    intro r hr
    have hpr : isProblem r = true := (List.mem_filter.mp hr).2
    by_cases h1 : r.status = Status.Mismatch
    · rw [if_pos h1]
      have hb : (r.status == Status.Mismatch) = true := by simpa using h1
      simp only [problemLine, hb, if_true]
    · have h2 : r.status = Status.ModelNotFound := by
        rcases (Bool.or_eq_true _ _).mp hpr with h | h
        · exact absurd (by simpa using h) h1
        · simpa using h
      rw [if_neg h1]
      have hb1 : (r.status == Status.Mismatch) = false := by simpa using h1
      have hb2 : (r.status == Status.ModelNotFound) = true := by simpa using h2
      simp only [problemLine, hb1, Bool.false_eq_true, if_false, hb2, if_true]
  simp only [generate_email_report]
  rw [hfold, hmap]
  by_cases he : results.filter isProblem = []
  · rw [if_pos (List.isEmpty_iff.mpr he), if_pos he]
  · rw [if_neg (fun hc => he (List.isEmpty_iff.mp hc)), if_neg he,
      String.append_empty]

set_option maxRecDepth 8000 in
/-- C9 (counterexample): a `Mismatch` result with no price-book row
renders its line with no provenance parenthetical at all — the report
contains the bare line (through its terminating newline) and the string
" (Row" nowhere, so the claimed unconditional row/column parenthetical
is absent. -/
theorem C9_counterexample :
    generate_email_report
        [{ model := "M1", po_price := PyVal.str "5",
           quantity := PyVal.num 1, status := Status.Mismatch,
           po_line_number := 1, price_book_row := Option.none,
           error_value := 1, description := Option.none,
           book_price := some 6, source_column := some "A",
           discrepancy := some 1 }] "PB" "123"
      = "Subject: Purchase Order Review - 123\n\nHi,\n\nI have reviewed your purchase order (123). The following discrepancies have been found:\n\nPO Line 1 - M1 - PO Price $5.00 - Price Book $6.00\n\nPlease revise these items and resubmit at your convenience. We truly appreciate your business.\n"
    ∧ containsChars
        ("Subject: Purchase Order Review - 123\n\nHi,\n\nI have reviewed your purchase order (123). The following discrepancies have been found:\n\nPO Line 1 - M1 - PO Price $5.00 - Price Book $6.00\n\nPlease revise these items and resubmit at your convenience. We truly appreciate your business.\n").toList
        ("PO Line 1 - M1 - PO Price $5.00 - Price Book $6.00\n").toList = true
    ∧ containsChars
        ("Subject: Purchase Order Review - 123\n\nHi,\n\nI have reviewed your purchase order (123). The following discrepancies have been found:\n\nPO Line 1 - M1 - PO Price $5.00 - Price Book $6.00\n\nPlease revise these items and resubmit at your convenience. We truly appreciate your business.\n").toList
        (" (Row".toList) = false := by
  refine ⟨?h1, ?h2, ?h3⟩
  · with_unfolding_all rfl
  · decide
  · decide

/-- C10 (witness): the guard property applied to a concrete one-entry
index: the dashless key "AB2Z" maps to "AB2-Z", whose dash-stripped form
is that key. -/
theorem C10_dash_rejection_unreachable_witness :
    removeDashes "AB2-Z" = "AB2Z" :=
  (C10_dash_rejection_unreachable
      (buildPriceDict [{ model_number := "AB2-Z", price := 3 }]).1).2.1
    "AB2Z" "AB2-Z" (by with_unfolding_all rfl)
